import Mathlib

/-!
Shallow embedding of the qgis-rotate_marker_symbol plugin core
(`src/core/rotation_state.py`, `src/core/helpers.py`, `src/validators.py`,
`src/core/field_manager.py`, `src/core/visual_feedback.py`,
`src/core/symbol_preview.py`, `src/core/rotate_marker_symbol_worker.py`).

Host-owned real arithmetic (`QgsPointXY.azimuth`) is modelled exactly over ℚ;
host objects (features, points, symbols, renderers) are modelled by concrete
structures carrying exactly the data the plugin reads from them.
-/

namespace RotateMarker

/-- Map coordinates of a `QgsPointXY`. -/
structure PointXY where
  x : ℚ
  y : ℚ
deriving DecidableEq

/-- The data the plugin reads from a `QgsFeature`: its `id()` and the point
returned by `feature.geometry().asPoint()`. -/
structure Feature where
  id : Int
  geometryPoint : PointXY
deriving DecidableEq

/-- Model of `MouseButton` from `src/core/helpers.py`: an `IntEnum` with
`LEFT = 0`, `MIDDLE = 1`, `RIGHT = 2`. Modelled as `Nat` constants since the
worker compares `event.button()` against these integer values. -/
def MouseButton.LEFT : Nat := 0

/-- Model of `MouseButton.MIDDLE = 1` from `src/core/helpers.py`. -/
def MouseButton.MIDDLE : Nat := 1

/-- Model of `MouseButton.RIGHT = 2` from `src/core/helpers.py`. -/
def MouseButton.RIGHT : Nat := 2

/-! ## RotationState (`src/core/rotation_state.py`) -/

/-- The `RotationState` dataclass. `azimuth` values are modelled over ℚ. -/
structure RotationState where
  feature : Option Feature := none
  feature_id : Option Int := none
  src_point : Option PointXY := none
  drawing_guide : Bool := false
  azimuth : Option ℚ := none
  rotation_field_index : Int := -1
  is_active : Bool := false
deriving DecidableEq

/-- The dataclass default values of `RotationState`. -/
def RotationState.initial : RotationState :=
  { feature := none
    feature_id := none
    src_point := none
    drawing_guide := false
    azimuth := none
    rotation_field_index := -1
    is_active := false }

/-- Model of `RotationState.reset`: sets every field back to its initial value. -/
def RotationState.reset (_s : RotationState) : RotationState :=
  { feature := none
    feature_id := none
    src_point := none
    drawing_guide := false
    azimuth := none
    rotation_field_index := -1
    is_active := false }

/-- Model of `RotationState.start_rotation(feature, field_index)`. Note that the
source sets `feature`, `feature_id`, `src_point`, `rotation_field_index`,
`drawing_guide` and `is_active` but leaves `azimuth` untouched. -/
def RotationState.start_rotation (s : RotationState) (feature : Feature)
    (field_index : Int) : RotationState :=
  { s with
    feature := some feature
    feature_id := some feature.id
    src_point := some feature.geometryPoint
    rotation_field_index := field_index
    drawing_guide := true
    is_active := true }

/-- Model of `RotationState.set_azimuth(raw_azimuth)`: normalizes from -180..180 to
0..360 by adding 360.0 exactly when the raw value is negative. -/
def RotationState.set_azimuth (s : RotationState) (raw_azimuth : ℚ) :
    RotationState :=
  if raw_azimuth < 0 then { s with azimuth := some (raw_azimuth + 360) }
  else { s with azimuth := some raw_azimuth }

/-- Model of `RotationState.finish_rotation`: delegates to `reset`. -/
def RotationState.finish_rotation (s : RotationState) : RotationState :=
  s.reset

/-! ## LayerEditingContext (`src/core/helpers.py`) as a call trace -/

/-- The three editing-session methods `LayerEditingContext` may call on the
layer. -/
inductive EditCall where
  | startEditing
  | commitChanges
  | rollBack
deriving DecidableEq

/-- Model of running `with LayerEditingContext(layer): body`.
`wasEditing` is `layer.isEditable()` captured in `__init__`; `bodyRaises`
says whether the body raised. Returns the list of editing-session calls made
on the layer, the value returned by `__exit__`, and whether the exception
propagates to the caller (it does exactly when the body raised and
`__exit__` returned a falsy value). -/
def layerEditingContextRun (wasEditing bodyRaises : Bool) :
    List EditCall × Bool × Bool :=
  let enterCalls : List EditCall :=
    if wasEditing then [] else [.startEditing]
  let exitCalls : List EditCall :=
    if wasEditing then []
    else if bodyRaises then [.rollBack] else [.commitChanges]
  let exitReturn := false
  (enterCalls ++ exitCalls, exitReturn, bodyRaises && !exitReturn)

/-! ## Validators (`src/validators.py`) -/

/-- QGIS wkb geometry types the validator distinguishes:
`layer.wkbType() == QgsWkbTypes.Point` or anything else. -/
inductive WkbType where
  | point
  | lineString
  | polygon
  | noGeometry
deriving DecidableEq

/-- Renderer classes the validator distinguishes by `isinstance`. -/
inductive RendererType where
  | singleSymbol
  | categorized
  | graduated
  | ruleBased
  | heatmap
  | pointCluster
deriving DecidableEq

/-- The data the validator reads from a layer: whether it is a
`QgsVectorLayer`, its `wkbType()` and the class of its `renderer()`. -/
structure MapLayer where
  isVector : Bool
  wkbType : WkbType
  renderer : RendererType
deriving DecidableEq

/-- Message levels used by `MessageHelper`. -/
inductive MessageLevel where
  | info
  | warning
  | critical
deriving DecidableEq

/-- A message pushed to the QGIS message bar. -/
structure Message where
  level : MessageLevel
  text : String
deriving DecidableEq

/-- Model of `LayerValidator.validate_layer`: layer present and has Point geometry.
Returns the boolean result and the messages pushed to the message bar. -/
def validate_layer (layer : Option MapLayer) : Bool × List Message :=
  match layer with
  | none =>
      (false, [⟨.warning, "There is no active layer in the Layers panel"⟩])
  | some l =>
      let is_valid := l.isVector && decide (l.wkbType = .point)
      if is_valid then (true, [])
      else (false, [⟨.critical, "The active layer must have Point geometry"⟩])

/-- Model of `LayerValidator.validate_renderer`: the renderer is one of Single
Symbol, Categorized, Rule-based, Graduated. -/
def validate_renderer (renderer : RendererType) : Bool × List Message :=
  let is_valid :=
    decide (renderer = .singleSymbol) || decide (renderer = .categorized) ||
    decide (renderer = .ruleBased) || decide (renderer = .graduated)
  if is_valid then (true, [])
  else
    (false,
     [⟨.critical,
       "The active layer does not have a compatible Marker renderer. Supported types: Single Symbol, Categorized, Graduated, Rule-based"⟩])

/-- Model of `LayerValidator.validate`: `None` fails immediately with no message;
otherwise `validate_layer` then `validate_renderer`, short-circuiting, with
message-bar pushes accumulated. -/
def validate (layer : Option MapLayer) : Bool × List Message :=
  match layer with
  | none => (false, [])
  | some l =>
      let r1 := validate_layer (some l)
      if !r1.1 then (false, r1.2)
      else
        let r2 := validate_renderer l.renderer
        if !r2.1 then (false, r1.2 ++ r2.2)
        else (true, r1.2 ++ r2.2)

/-! ## Vector layer and RotationFieldManager (`src/core/field_manager.py`) -/

/-- Field types a `QgsField` may carry; the plugin creates `QVariant.Double`
fields. -/
inductive FieldType where
  | Double
  | IntType
  | StringType
deriving DecidableEq

/-- A `QgsField`: a name and a type. -/
structure QgsField where
  name : String
  typ : FieldType
deriving DecidableEq

/-- An attribute cell value: `none` models NULL. -/
def AttrValue : Type := Option ℚ
deriving instance DecidableEq for AttrValue

/-- A symbol as the plugin sees it: its data-defined angle property (the
expression string set by `setDataDefinedAngle`, if any) and its fixed
`angle` (set by `setAngle` on marker symbols). -/
structure Symbol where
  dataDefinedAngle : Option String := none
  angle : ℚ := 0
deriving DecidableEq

/-- The data the plugin reads from and writes to a `QgsVectorLayer`:
its fields, its attribute table (feature id ↦ attribute row), whether it is
currently editable, the trace of editing-session calls made on it, and the
symbols of its renderer (as returned by `_get_layer_symbols`). -/
structure VectorLayer where
  fields : List QgsField
  attrs : List (Int × List AttrValue)
  editable : Bool
  editLog : List EditCall
  symbols : List Symbol
deriving DecidableEq

/-- Model of `layer.startEditing()`. -/
def VectorLayer.startEditing (l : VectorLayer) : VectorLayer :=
  { l with editable := true, editLog := l.editLog ++ [.startEditing] }

/-- Model of `layer.commitChanges()`. -/
def VectorLayer.commitChanges (l : VectorLayer) : VectorLayer :=
  { l with editable := false, editLog := l.editLog ++ [.commitChanges] }

/-- Model of `with LayerEditingContext(layer) as lyr: body(lyr)` on the happy path
(the bodies used by the field manager do not raise in the model): start
editing when the layer was not already editable, run the body, commit when
editing was started here. -/
def withLayerEditingContext (l : VectorLayer)
    (body : VectorLayer → VectorLayer) : VectorLayer :=
  let was_editing := l.editable
  let l1 := if was_editing then l else l.startEditing
  let l2 := body l1
  if was_editing then l2 else l2.commitChanges

/-- Model of `RotationFieldManager.ROTATION_FIELD`. -/
def ROTATION_FIELD : String := "__rotation__"

/-- Model of `layer.fields().indexOf(name)`: index of the first field with the given
name, or -1 when absent. -/
def VectorLayer.fieldIndexOf (l : VectorLayer) (name : String) : Int :=
  match l.fields.findIdx? (fun f => f.name = name) with
  | some i => (i : Int)
  | none => -1

/-- Model of `RotationFieldManager.get_field_index`. -/
def get_field_index (l : VectorLayer) : Int :=
  l.fieldIndexOf ROTATION_FIELD

/-- Model of `RotationFieldManager.field_exists`. -/
def field_exists (l : VectorLayer) : Bool :=
  decide (0 ≤ get_field_index l)

/-- Model of `lyr.addAttribute(QgsField(ROTATION_FIELD, QVariant.Double))` followed
by `lyr.updateFields()`: appends the field to the layer's field list. -/
def addRotationAttribute (l : VectorLayer) : VectorLayer :=
  { l with fields := l.fields ++ [⟨ROTATION_FIELD, .Double⟩] }

/-- Model of `RotationFieldManager._create_rotation_field`: adds the rotation field
inside a `LayerEditingContext`. -/
def create_rotation_field (l : VectorLayer) : VectorLayer :=
  withLayerEditingContext l addRotationAttribute

/-- Model of `RotationFieldManager.ensure_rotation_field_exists`: returns the
(possibly updated) layer together with the index of the rotation field. -/
def ensure_rotation_field_exists (l : VectorLayer) : VectorLayer × Int :=
  let field_index := get_field_index l
  if field_index < 0 then
    let l1 := create_rotation_field l
    (l1, get_field_index l1)
  else (l, field_index)

/-- Model of `lyr.changeAttributeValue(fid, idx, value)`: sets attribute `idx` of
every feature whose id matches `fid`; a negative or out-of-range index, or
an id matching no feature, changes nothing. -/
def changeAttributeValue (l : VectorLayer) (fid : Option Int) (idx : Int)
    (value : ℚ) : VectorLayer :=
  { l with
    attrs := l.attrs.map (fun p =>
      if some p.1 = fid ∧ 0 ≤ idx then
        (p.1, p.2.set idx.toNat (some value))
      else p) }

/-- Model of `RotationFieldManager.update_rotation(feature_id, field_index, azimuth)`:
changes the attribute value inside a `LayerEditingContext`. -/
def update_rotation (l : VectorLayer) (feature_id : Option Int)
    (field_index : Int) (azimuth : ℚ) : VectorLayer :=
  withLayerEditingContext l
    (fun lyr => changeAttributeValue lyr feature_id field_index azimuth)

/-- The expression `'"__rotation__"'` built by `set_data_defined_rotation`
from `QgsProperty.fromExpression(f'"{ROTATION_FIELD}"')`. -/
def rotation_field_expression : String := "\"" ++ ROTATION_FIELD ++ "\""

/-- Model of `RotationFieldManager.set_data_defined_rotation(symbols)` applied to the
layer's renderer symbols: every symbol's data-defined angle is set to read
from the rotation field. -/
def set_data_defined_rotation (l : VectorLayer) : VectorLayer :=
  { l with
    symbols := l.symbols.map
      (fun s => { s with dataDefinedAngle := some rotation_field_expression }) }

/-! ## Visual feedback (`src/core/visual_feedback.py`,
`src/core/symbol_preview.py`) -/

/-- The symbol preview canvas item: its map position, its (cloned) symbol
and its current `_rotation`. -/
structure Preview where
  pos : PointXY
  symbol : Symbol
  rotation : ℚ
deriving DecidableEq

/-- The state of `VisualFeedbackManager`: the point rubber bands on the
canvas, the guide rubber band (`none` = not created; `some none` = created
without geometry; `some (some (a, b))` = showing the segment a-b), the snap
indicator's current match, and the symbol preview item. -/
structure VisualState where
  point_bands : List PointXY
  guide : Option (Option (PointXY × PointXY))
  snap_match : Option PointXY
  preview : Option Preview
deriving DecidableEq

/-- The visual state right after `VisualFeedbackManager.__init__`. -/
def VisualState.initial : VisualState :=
  { point_bands := [], guide := none, snap_match := none, preview := none }

/-- Model of `create_point_rubber_band(point)`: adds a point rubber band. -/
def VisualState.create_point_rubber_band (v : VisualState)
    (point : Option PointXY) : VisualState :=
  match point with
  | some p => { v with point_bands := v.point_bands ++ [p] }
  | none => v

/-- Model of `create_guide_line()`: creates the guide rubber band with no geometry. -/
def VisualState.create_guide_line (v : VisualState) : VisualState :=
  { v with guide := some none }

/-- Model of `update_guide_line(start_point, end_point)`: when the guide rubber band
exists and the start point is set, shows the two-point segment. -/
def VisualState.update_guide_line (v : VisualState)
    (start_point : Option PointXY) (end_point : PointXY) : VisualState :=
  match v.guide, start_point with
  | some _, some p => { v with guide := some (some (p, end_point)) }
  | _, _ => v

/-- Model of `update_snap_indicator(snap_match)`. -/
def VisualState.update_snap_indicator (v : VisualState)
    (m : Option PointXY) : VisualState :=
  { v with snap_match := m }

/-- Model of `SymbolPreviewCanvasItem.setRotation(angle)` as it acts on the preview:
stores the rotation and applies `setAngle` to the cloned symbol. -/
def Preview.setRotation (p : Preview) (angle : ℚ) : Preview :=
  { p with rotation := angle, symbol := { p.symbol with angle := angle } }

/-- Model of `create_symbol_preview(point, symbol)`: replaces any existing preview by
a fresh item at the point, with rotation 0 (`create_preview` calls
`setRotation(0.0)`). -/
def VisualState.create_symbol_preview (v : VisualState)
    (point : Option PointXY) (symbol : Symbol) : VisualState :=
  match point with
  | some p =>
      { v with preview := some (Preview.setRotation ⟨p, symbol, 0⟩ 0) }
  | none => v

/-- Model of `update_symbol_rotation(angle)` / `SymbolPreviewManager.update_rotation`:
updates the preview item's rotation when a preview exists. -/
def VisualState.update_symbol_rotation (v : VisualState) (angle : ℚ) :
    VisualState :=
  match v.preview with
  | some pr => { v with preview := some (pr.setRotation angle) }
  | none => v

/-- Model of `VisualFeedbackManager.clear()`: `remove_all_rubber_bands` plus
`remove_symbol_preview` (the snap indicator is not touched). -/
def VisualState.clear (v : VisualState) : VisualState :=
  { v with point_bands := [], guide := none, preview := none }

/-! ## PointSymbolRotator (`src/core/rotate_marker_symbol_worker.py`) -/

/-- The mutable state of the `PointSymbolRotator` map tool that the canvas
event handlers touch: the active layer, the cached validation result, the
rotation state and the visual feedback. -/
structure Worker where
  layer : VectorLayer
  is_valid : Bool
  state : RotationState
  visual : VisualState
deriving DecidableEq

/-- Host responses consumed by `_start_rotation`: the feature of the first
identify result at the click position (`none` when `identify` returned no
results), and the symbol returned by `_get_feature_symbol` for that
feature. -/
structure StartEnv where
  identify : Option Feature
  feature_symbol : Option Symbol
deriving DecidableEq

/-- Model of `PointSymbolRotator._start_rotation(event)`: identify the clicked
feature; ensure the rotation field exists; configure data-defined rotation
on the layer symbols; initialize the rotation state; create the point
rubber band, the guide line, and (when a symbol was found) the symbol
preview. -/
def startRotation (env : StartEnv) (w : Worker) : Worker :=
  match env.identify with
  | none => w
  | some feature =>
      let r := ensure_rotation_field_exists w.layer
      let field_index := r.2
      let layer2 := set_data_defined_rotation r.1
      let state1 := w.state.start_rotation feature field_index
      let visual1 := w.visual.create_point_rubber_band state1.src_point
      let visual2 := visual1.create_guide_line
      let visual3 :=
        match env.feature_symbol with
        | some symbol => visual2.create_symbol_preview state1.src_point symbol
        | none => visual2
      { w with layer := layer2, state := state1, visual := visual3 }

/-- Model of `PointSymbolRotator._cleanup_after_rotation`: clear the visual feedback
and reset the rotation state. -/
def cleanupAfterRotation (w : Worker) : Worker :=
  { w with visual := w.visual.clear, state := w.state.reset }

/-- Model of `PointSymbolRotator._commit_rotation`: when a rotation is active and an
azimuth has been set, persist the azimuth into the rotation field of the
current feature via `update_rotation`, then clean up; otherwise do
nothing. -/
def commitRotation (w : Worker) : Worker :=
  if !w.state.is_active || w.state.azimuth.isNone then w
  else
    let layer1 := update_rotation w.layer w.state.feature_id
      w.state.rotation_field_index (w.state.azimuth.getD 0)
    cleanupAfterRotation { w with layer := layer1 }

/-- Model of `PointSymbolRotator._cancel_rotation`: clean up without saving. -/
def cancelRotation (w : Worker) : Worker :=
  cleanupAfterRotation w

/-- Model of `PointSymbolRotator.canvasReleaseEvent(event)`: dispatch on the released
button and on whether the guide is being drawn; no effect when the active
layer failed validation. -/
def canvasReleaseEvent (env : StartEnv) (w : Worker) (button : Nat) :
    Worker :=
  if !w.is_valid then w
  else if (button = MouseButton.LEFT ∨ button = MouseButton.MIDDLE) ∧
      w.state.drawing_guide = false then
    startRotation env w
  else if (button = MouseButton.LEFT ∨ button = MouseButton.MIDDLE) ∧
      w.state.drawing_guide = true then
    commitRotation w
  else if button = MouseButton.RIGHT then
    cancelRotation w
  else w

/-- Model of `PointSymbolRotator.canvasMoveEvent(event)`: update the snap indicator;
while the guide is being drawn from a known source point, update the guide
line to the segment from the source point to the event's map point, store
the normalized azimuth from the source point to that map point, and update
the symbol preview's rotation to the stored azimuth. The host bearing
`QgsPointXY.azimuth` is passed in as `azimuthFn`; `mapPoint` is
`event.mapPoint()` and `snapMatch` the result of `snapToMap`. -/
def canvasMoveEvent (azimuthFn : PointXY → PointXY → ℚ) (w : Worker)
    (mapPoint : PointXY) (snapMatch : Option PointXY) : Worker :=
  if !w.is_valid then w
  else
    let visual0 := w.visual.update_snap_indicator snapMatch
    match w.state.drawing_guide, w.state.src_point with
    | true, some src_point =>
        let end_point := mapPoint
        let visual1 := visual0.update_guide_line (some src_point) end_point
        let raw_azimuth := azimuthFn src_point end_point
        let state1 := w.state.set_azimuth raw_azimuth
        let visual2 := visual1.update_symbol_rotation (state1.azimuth.getD 0)
        { w with visual := visual2, state := state1 }
    | _, _ => { w with visual := visual0 }

/-! ## Reachable rotation states (for the state invariant) -/

/-- One call on a `RotationState`. -/
inductive StateOp where
  | startRot (feature : Feature) (field_index : Int)
  | setAz (raw_azimuth : ℚ)
  | finish
  | resetOp
deriving DecidableEq

/-- Apply one call. -/
def applyOp (op : StateOp) (s : RotationState) : RotationState :=
  match op with
  | .startRot feature field_index => s.start_rotation feature field_index
  | .setAz raw => s.set_azimuth raw
  | .finish => s.finish_rotation
  | .resetOp => s.reset

/-- Apply a sequence of calls to the initial state; the head of the list is
the most recent call. -/
def applyOps : List StateOp → RotationState
  | [] => RotationState.initial
  | op :: rest => applyOp op (applyOps rest)

/-- The arguments of the most recent `start_rotation` in the sequence, if
any. -/
def lastStartArgs : List StateOp → Option (Feature × Int)
  | [] => none
  | .startRot feature field_index :: _ => some (feature, field_index)
  | _ :: rest => lastStartArgs rest

/-- Observation helper: the attribute at index `idx` of the first row with
feature id `fid` in an attribute table. -/
def attrsAt (attrs : List (Int × List AttrValue)) (fid : Int) (idx : Nat) :
    Option AttrValue :=
  match attrs.find? (fun p => p.1 == fid) with
  | some p => p.2[idx]?
  | none => none

/-- Model of `layer.attrAt fid idx`: the attribute at index `idx` of the first
feature with id `fid`, or `none` when the feature or the index is absent. -/
def VectorLayer.attrAt (l : VectorLayer) (fid : Int) (idx : Nat) :
    Option AttrValue :=
  attrsAt l.attrs fid idx

/-- The value `set_azimuth` stores: `raw + 360` for negative raw values. -/
def normalizeAzimuth (raw : ℚ) : ℚ :=
  if raw < 0 then raw + 360 else raw

/-! ## Sample host objects used by the witnesses -/

/-- A sample map point. -/
def samplePoint : PointXY := ⟨3, 4⟩

/-- A sample feature with id 7 at `samplePoint`. -/
def sampleFeature : Feature := ⟨7, samplePoint⟩

/-- A sample marker symbol with no data-defined angle. -/
def sampleSymbol : Symbol := {}

/-- A sample layer holding feature 7 with two fields, the second being the
rotation field. -/
def sampleLayer : VectorLayer :=
  { fields := [⟨"name", .StringType⟩, ⟨ROTATION_FIELD, .Double⟩]
    attrs := [(7, [some 1, none])]
    editable := false
    editLog := []
    symbols := [sampleSymbol] }

/-- A sample layer without the rotation field. -/
def sampleBareLayer : VectorLayer :=
  { fields := [⟨"name", .StringType⟩]
    attrs := [(7, [some 1])]
    editable := false
    editLog := []
    symbols := [sampleSymbol] }

/-- A sample identify environment returning `sampleFeature`. -/
def sampleEnv : StartEnv :=
  { identify := some sampleFeature, feature_symbol := some sampleSymbol }

/-- A worker on a validated layer with no rotation in progress. -/
def sampleIdleWorker : Worker :=
  { layer := sampleLayer
    is_valid := true
    state := RotationState.initial
    visual := VisualState.initial }

/-- A worker in the middle of an active rotation of feature 7, with the
guide line and the symbol preview on the canvas and azimuth 270 stored. -/
def sampleActiveWorker : Worker :=
  { layer := sampleLayer
    is_valid := true
    state :=
      { feature := some sampleFeature
        feature_id := some 7
        src_point := some samplePoint
        drawing_guide := true
        azimuth := some 270
        rotation_field_index := 1
        is_active := true }
    visual :=
      { point_bands := [samplePoint]
        guide := some none
        snap_match := none
        preview := some ⟨samplePoint, sampleSymbol, 0⟩ } }

/-! ## Helper lemmas -/

/-- Lemma: `set_azimuth` stores exactly the normalized azimuth. -/
theorem set_azimuth_azimuth (s : RotationState) (raw : ℚ) :
    (s.set_azimuth raw).azimuth = some (normalizeAzimuth raw) := by
  unfold RotationState.set_azimuth normalizeAzimuth
  split <;> rfl

/-- Lemma: `set_azimuth` leaves every field other than `azimuth` unchanged. -/
theorem set_azimuth_preserves (s : RotationState) (raw : ℚ) :
    (s.set_azimuth raw).feature = s.feature ∧
    (s.set_azimuth raw).feature_id = s.feature_id ∧
    (s.set_azimuth raw).src_point = s.src_point ∧
    (s.set_azimuth raw).drawing_guide = s.drawing_guide ∧
    (s.set_azimuth raw).rotation_field_index = s.rotation_field_index ∧
    (s.set_azimuth raw).is_active = s.is_active := by
  unfold RotationState.set_azimuth
  split <;> exact ⟨rfl, rfl, rfl, rfl, rfl, rfl⟩

/-! ## Claims -/

/-- C2: `RotationState.set_azimuth(raw)` stores `raw + 360.0` when
`raw < 0` and `raw` unchanged otherwise; for every raw azimuth in
[-180, 180] the stored azimuth lies in [0, 360). -/
theorem C2_set_azimuth_normalizes (s : RotationState) (raw : ℚ) :
    ((s.set_azimuth raw).azimuth =
      some (if raw < 0 then raw + 360 else raw)) ∧
    (-180 ≤ raw → raw ≤ 180 →
      ∃ a, (s.set_azimuth raw).azimuth = some a ∧ 0 ≤ a ∧ a < 360) := by
  constructor
  · rw [set_azimuth_azimuth]
    rfl
  · intro h1 h2
    rw [set_azimuth_azimuth]
    unfold normalizeAzimuth
    by_cases hr : raw < 0
    · exact ⟨raw + 360, by rw [if_pos hr], by linarith, by linarith⟩
    · exact ⟨raw, by rw [if_neg hr], by linarith [not_lt.mp hr], by linarith⟩

/-- Witness for C2 at the concrete raw azimuth -90. -/
theorem C2_set_azimuth_normalizes_witness :
    ∃ a, (RotationState.initial.set_azimuth (-90)).azimuth = some a ∧
      0 ≤ a ∧ a < 360 :=
  (C2_set_azimuth_normalizes RotationState.initial (-90)).2
    (by norm_num) (by norm_num)

/-- C9: `LayerEditingContext` preserves an existing edit session (no
editing-session calls at all when the layer was already editable,
exceptions or not) and is atomic otherwise: `startEditing` on entry,
`commitChanges` on normal exit, `rollBack` on exceptional exit; `__exit__`
returns `False` so the exception propagates exactly when the body raised. -/
theorem C9_layerEditingContext_spec (wasEditing bodyRaises : Bool) :
    (wasEditing = true →
      (layerEditingContextRun wasEditing bodyRaises).1 = []) ∧
    (wasEditing = false → bodyRaises = false →
      (layerEditingContextRun wasEditing bodyRaises).1 =
        [.startEditing, .commitChanges]) ∧
    (wasEditing = false → bodyRaises = true →
      (layerEditingContextRun wasEditing bodyRaises).1 =
        [.startEditing, .rollBack]) ∧
    (layerEditingContextRun wasEditing bodyRaises).2.1 = false ∧
    (layerEditingContextRun wasEditing bodyRaises).2.2 = bodyRaises := by
  cases wasEditing <;> cases bodyRaises <;>
    simp [layerEditingContextRun]

/-- Witness for C9: a layer not previously editable whose body raises gets
`startEditing` then `rollBack`. -/
theorem C9_layerEditingContext_spec_witness :
    (layerEditingContextRun false true).1 =
      [EditCall.startEditing, EditCall.rollBack] :=
  (C9_layerEditingContext_spec false true).2.2.1 rfl rfl

/-- C5: `validate` succeeds exactly on vector layers with Point geometry
and a Single Symbol, Categorized, Graduated or Rule-based renderer; every
failure on a non-None layer pushes exactly one critical message;
`validate(None)` returns False (with no message). -/
theorem C5_validate_spec (l : MapLayer) :
    ((validate (some l)).1 = true ↔
      (l.isVector = true ∧ l.wkbType = .point ∧
        (l.renderer = .singleSymbol ∨ l.renderer = .categorized ∨
         l.renderer = .graduated ∨ l.renderer = .ruleBased))) ∧
    ((validate (some l)).1 = false →
      ∃ m, (validate (some l)).2 = [m] ∧ m.level = .critical) ∧
    (validate none).1 = false := by
  obtain ⟨iv, wt, r⟩ := l
  cases iv <;> cases wt <;> cases r <;>
    simp [validate, validate_layer, validate_renderer]

/-- Witness for C5: a vector layer with line geometry fails validation with
exactly one critical message. -/
theorem C5_validate_spec_witness :
    ∃ m,
      (validate (some ⟨true, WkbType.lineString, RendererType.singleSymbol⟩)).2
        = [m] ∧ m.level = .critical :=
  (C5_validate_spec ⟨true, .lineString, .singleSymbol⟩).2.1 (by decide)

/-- C3: `canvasReleaseEvent` dispatch with a validated layer: left or
middle release with no guide being drawn starts a rotation; left or middle
release while drawing commits; right release cancels; an invalid active
layer makes the event a no-op. The `MouseButton` enum has LEFT=0, MIDDLE=1,
RIGHT=2. -/
theorem C3_canvasReleaseEvent_dispatch (env : StartEnv) (w : Worker)
    (button : Nat) :
    MouseButton.LEFT = 0 ∧ MouseButton.MIDDLE = 1 ∧ MouseButton.RIGHT = 2 ∧
    (w.is_valid = false → canvasReleaseEvent env w button = w) ∧
    (w.is_valid = true →
      (button = MouseButton.LEFT ∨ button = MouseButton.MIDDLE) →
      w.state.drawing_guide = false →
      canvasReleaseEvent env w button = startRotation env w) ∧
    (w.is_valid = true →
      (button = MouseButton.LEFT ∨ button = MouseButton.MIDDLE) →
      w.state.drawing_guide = true →
      canvasReleaseEvent env w button = commitRotation w) ∧
    (w.is_valid = true → button = MouseButton.RIGHT →
      canvasReleaseEvent env w button = cancelRotation w) := by
  refine ⟨rfl, rfl, rfl, ?_, ?_, ?_, ?_⟩
  · intro hv
    simp [canvasReleaseEvent, hv]
  · intro hv hb hg
    simp [canvasReleaseEvent, hv, hb, hg]
  · intro hv hb hg
    rcases hb with hb | hb <;>
      simp [canvasReleaseEvent, hv, hb, hg, MouseButton.LEFT,
        MouseButton.MIDDLE]
  · intro hv hb
    subst hb
    simp [canvasReleaseEvent, hv, MouseButton.RIGHT, MouseButton.LEFT,
      MouseButton.MIDDLE]

/-- Witness for C3: on the idle worker, a left release starts a rotation. -/
theorem C3_canvasReleaseEvent_dispatch_witness :
    canvasReleaseEvent sampleEnv sampleIdleWorker 0 =
      startRotation sampleEnv sampleIdleWorker :=
  (C3_canvasReleaseEvent_dispatch sampleEnv sampleIdleWorker 0).2.2.2.2.1
    rfl (Or.inl rfl) rfl

/-- C4: a right-click release during an active rotation on a validated
layer leaves the layer untouched (`update_rotation` is never called),
clears all visual feedback, and resets the whole rotation state to its
initial values (feature none, feature_id none, src_point none,
drawing_guide false, azimuth none, rotation_field_index -1,
is_active false). -/
theorem C4_cancel_discards_state (env : StartEnv) (w : Worker)
    (hv : w.is_valid = true) (_ha : w.state.is_active = true) :
    canvasReleaseEvent env w MouseButton.RIGHT =
      { w with visual := w.visual.clear, state := RotationState.initial } ∧
    (canvasReleaseEvent env w MouseButton.RIGHT).layer = w.layer ∧
    (canvasReleaseEvent env w MouseButton.RIGHT).state.feature = none ∧
    (canvasReleaseEvent env w MouseButton.RIGHT).state.feature_id = none ∧
    (canvasReleaseEvent env w MouseButton.RIGHT).state.src_point = none ∧
    (canvasReleaseEvent env w MouseButton.RIGHT).state.drawing_guide
      = false ∧
    (canvasReleaseEvent env w MouseButton.RIGHT).state.azimuth = none ∧
    (canvasReleaseEvent env w MouseButton.RIGHT).state.rotation_field_index
      = -1 ∧
    (canvasReleaseEvent env w MouseButton.RIGHT).state.is_active = false := by
  have hdisp : canvasReleaseEvent env w MouseButton.RIGHT =
      cancelRotation w := by
    simp [canvasReleaseEvent, hv, MouseButton.RIGHT, MouseButton.LEFT,
      MouseButton.MIDDLE]
  rw [hdisp]
  refine ⟨rfl, rfl, rfl, rfl, rfl, rfl, rfl, rfl, rfl⟩

/-- Witness for C4 on the sample active worker. -/
theorem C4_cancel_discards_state_witness :
    canvasReleaseEvent sampleEnv sampleActiveWorker MouseButton.RIGHT =
      { sampleActiveWorker with
        visual := sampleActiveWorker.visual.clear
        state := RotationState.initial } ∧
    (canvasReleaseEvent sampleEnv sampleActiveWorker
      MouseButton.RIGHT).layer = sampleActiveWorker.layer ∧
    (canvasReleaseEvent sampleEnv sampleActiveWorker
      MouseButton.RIGHT).state.feature = none ∧
    (canvasReleaseEvent sampleEnv sampleActiveWorker
      MouseButton.RIGHT).state.feature_id = none ∧
    (canvasReleaseEvent sampleEnv sampleActiveWorker
      MouseButton.RIGHT).state.src_point = none ∧
    (canvasReleaseEvent sampleEnv sampleActiveWorker
      MouseButton.RIGHT).state.drawing_guide = false ∧
    (canvasReleaseEvent sampleEnv sampleActiveWorker
      MouseButton.RIGHT).state.azimuth = none ∧
    (canvasReleaseEvent sampleEnv sampleActiveWorker
      MouseButton.RIGHT).state.rotation_field_index = -1 ∧
    (canvasReleaseEvent sampleEnv sampleActiveWorker
      MouseButton.RIGHT).state.is_active = false :=
  C4_cancel_discards_state sampleEnv sampleActiveWorker rfl rfl

/-- C10: in every state reachable from the initial `RotationState` by
`start_rotation`, `set_azimuth`, `finish_rotation` and `reset` calls,
`drawing_guide` equals `is_active`, and while active the feature fields
mirror the feature and field index passed to the most recent
`start_rotation`. -/
theorem C10_rotationState_invariant (ops : List StateOp) :
    (applyOps ops).drawing_guide = (applyOps ops).is_active ∧
    ((applyOps ops).is_active = true →
      ∃ f i, lastStartArgs ops = some (f, i) ∧
        (applyOps ops).feature = some f ∧
        (applyOps ops).feature_id = some f.id ∧
        (applyOps ops).src_point = some f.geometryPoint ∧
        (applyOps ops).rotation_field_index = i) := by
  induction ops with
  | nil => exact ⟨rfl, by intro h; exact absurd h (by decide)⟩
  | cons op rest ih =>
    obtain ⟨ih1, ih2⟩ := ih
    cases op with
    | startRot f i =>
        refine ⟨rfl, fun _ => ⟨f, i, rfl, rfl, rfl, rfl, rfl⟩⟩
    | setAz raw =>
        obtain ⟨hf, hfi, hsp, hdg, hrfi, hia⟩ :=
          set_azimuth_preserves (applyOps rest) raw
        constructor
        · simp only [applyOps, applyOp]
          rw [hdg, hia, ih1]
        · intro hact
          simp only [applyOps, applyOp, lastStartArgs] at hact ⊢
          rw [hia] at hact
          obtain ⟨f, i, h1, h2, h3, h4, h5⟩ := ih2 hact
          exact ⟨f, i, h1, by rw [hf, h2], by rw [hfi, h3],
            by rw [hsp, h4], by rw [hrfi, h5]⟩
    | finish =>
        exact ⟨rfl, by intro h; exact absurd h (by simp [applyOps, applyOp,
          RotationState.finish_rotation, RotationState.reset])⟩
    | resetOp =>
        exact ⟨rfl, by intro h; exact absurd h (by simp [applyOps, applyOp,
          RotationState.reset])⟩

/-- Witness for C10: a start followed by a set_azimuth leaves an active
state mirroring the started feature. -/
theorem C10_rotationState_invariant_witness :
    ∃ f i,
      lastStartArgs [StateOp.setAz 45, StateOp.startRot sampleFeature 2] =
        some (f, i) ∧
      (applyOps [StateOp.setAz 45,
        StateOp.startRot sampleFeature 2]).feature = some f ∧
      (applyOps [StateOp.setAz 45,
        StateOp.startRot sampleFeature 2]).feature_id = some f.id ∧
      (applyOps [StateOp.setAz 45,
        StateOp.startRot sampleFeature 2]).src_point =
          some f.geometryPoint ∧
      (applyOps [StateOp.setAz 45,
        StateOp.startRot sampleFeature 2]).rotation_field_index = i :=
  (C10_rotationState_invariant
    [StateOp.setAz 45, StateOp.startRot sampleFeature 2]).2 (by decide)

/-- C6: during an active drag (guide being drawn from a known source
point, guide rubber band and preview on the canvas), every move event sets
the guide line to the segment from the source point to the event's map
point, stores the normalized azimuth from the source point to that map
point, and updates the symbol preview's rotation to that same value. -/
theorem C6_canvasMoveEvent_azimuth (azimuthFn : PointXY → PointXY → ℚ)
    (w : Worker) (mapPoint : PointXY) (snapMatch : Option PointXY)
    (src : PointXY) (g : Option (PointXY × PointXY)) (pr : Preview)
    (hv : w.is_valid = true) (hg : w.state.drawing_guide = true)
    (hs : w.state.src_point = some src)
    (hgd : w.visual.guide = some g)
    (hp : w.visual.preview = some pr) :
    (canvasMoveEvent azimuthFn w mapPoint snapMatch).visual.guide =
      some (some (src, mapPoint)) ∧
    (canvasMoveEvent azimuthFn w mapPoint snapMatch).state.azimuth =
      some (normalizeAzimuth (azimuthFn src mapPoint)) ∧
    ∃ pr1,
      (canvasMoveEvent azimuthFn w mapPoint snapMatch).visual.preview =
        some pr1 ∧
      pr1.rotation = normalizeAzimuth (azimuthFn src mapPoint) := by
  have haz := set_azimuth_azimuth w.state (azimuthFn src mapPoint)
  simp only [canvasMoveEvent, hv, Bool.not_true, Bool.false_eq_true,
    if_false, hg, hs]
  simp only [VisualState.update_snap_indicator,
    VisualState.update_guide_line, VisualState.update_symbol_rotation, hgd,
    hp, haz, Option.getD_some, Preview.setRotation]
  simp

/-- Witness for C6 with the host bearing stubbed to the constant -45: the
stored azimuth and the preview rotation both become 315. -/
theorem C6_canvasMoveEvent_azimuth_witness :
    (canvasMoveEvent (fun _ _ => (-45 : ℚ)) sampleActiveWorker ⟨4, 5⟩
      none).visual.guide = some (some (samplePoint, ⟨4, 5⟩)) ∧
    (canvasMoveEvent (fun _ _ => (-45 : ℚ)) sampleActiveWorker ⟨4, 5⟩
      none).state.azimuth = some (normalizeAzimuth (-45)) ∧
    ∃ pr1,
      (canvasMoveEvent (fun _ _ => (-45 : ℚ)) sampleActiveWorker ⟨4, 5⟩
        none).visual.preview = some pr1 ∧
      pr1.rotation = normalizeAzimuth (-45) :=
  C6_canvasMoveEvent_azimuth (fun _ _ => (-45 : ℚ)) sampleActiveWorker
    ⟨4, 5⟩ none samplePoint none ⟨samplePoint, sampleSymbol, 0⟩
    rfl rfl rfl rfl rfl

/-- Lemma: `_create_rotation_field` appends exactly one Double field named
`__rotation__`, whatever the editing state. -/
theorem create_rotation_field_fields (l : VectorLayer) :
    (create_rotation_field l).fields =
      l.fields ++ [⟨ROTATION_FIELD, .Double⟩] := by
  unfold create_rotation_field withLayerEditingContext addRotationAttribute
    VectorLayer.startEditing VectorLayer.commitChanges
  by_cases h : l.editable <;> simp [h]

/-- Lemma: `_create_rotation_field` preserves attributes and symbols. -/
theorem create_rotation_field_preserves (l : VectorLayer) :
    (create_rotation_field l).attrs = l.attrs ∧
    (create_rotation_field l).symbols = l.symbols := by
  unfold create_rotation_field withLayerEditingContext addRotationAttribute
    VectorLayer.startEditing VectorLayer.commitChanges
  by_cases h : l.editable <;> simp [h]

/-- The editing-session calls `_create_rotation_field` makes on the layer:
a `startEditing`/`commitChanges` pair when the layer was not editable,
nothing when it already was. -/
theorem create_rotation_field_editLog (l : VectorLayer) :
    (l.editable = false →
      (create_rotation_field l).editLog =
        l.editLog ++ [.startEditing, .commitChanges]) ∧
    (l.editable = true → (create_rotation_field l).editLog = l.editLog) := by
  unfold create_rotation_field withLayerEditingContext addRotationAttribute
    VectorLayer.startEditing VectorLayer.commitChanges
  by_cases h : l.editable <;> simp [h]

/-- Lemma: `get_field_index` is negative exactly when no field is named
`__rotation__`. -/
theorem get_field_index_neg_iff (l : VectorLayer) :
    get_field_index l < 0 ↔
      l.fields.findIdx? (fun f => f.name = ROTATION_FIELD) = none := by
  unfold get_field_index VectorLayer.fieldIndexOf
  cases hfind : l.fields.findIdx? (fun f => f.name = ROTATION_FIELD) with
  | none => simp
  | some i => simp [hfind]

/-- After creating the rotation field in a layer that lacked it, its index
is the old number of fields. -/
theorem get_field_index_create (l : VectorLayer)
    (h : get_field_index l < 0) :
    get_field_index (create_rotation_field l) = (l.fields.length : Int) := by
  have hfind := (get_field_index_neg_iff l).mp h
  unfold get_field_index VectorLayer.fieldIndexOf
  rw [create_rotation_field_fields l]
  rw [List.findIdx?_append, hfind]
  simp [ROTATION_FIELD]

/-- C7: `ensure_rotation_field_exists` returns the index of the
`__rotation__` field, creating it as a Double field inside an editing
session only when absent; when the field exists the layer is unchanged;
`_start_rotation` records the returned index in the rotation state and sets
every layer symbol's data-defined angle to read from the rotation field. -/
theorem C7_ensure_rotation_field (l : VectorLayer) (env : StartEnv)
    (w : Worker) (f : Feature) (hid : env.identify = some f) :
    (0 ≤ (ensure_rotation_field_exists l).2 ∧
     get_field_index (ensure_rotation_field_exists l).1 =
       (ensure_rotation_field_exists l).2) ∧
    (0 ≤ get_field_index l →
      ensure_rotation_field_exists l = (l, get_field_index l)) ∧
    (get_field_index l < 0 →
      (ensure_rotation_field_exists l).1.fields =
        l.fields ++ [⟨ROTATION_FIELD, .Double⟩] ∧
      (l.editable = false →
        (ensure_rotation_field_exists l).1.editLog =
          l.editLog ++ [.startEditing, .commitChanges]) ∧
      (l.editable = true →
        (ensure_rotation_field_exists l).1.editLog = l.editLog)) ∧
    ((startRotation env w).state.rotation_field_index =
      (ensure_rotation_field_exists w.layer).2 ∧
     ∀ s ∈ (startRotation env w).layer.symbols,
       s.dataDefinedAngle = some rotation_field_expression) := by
  refine ⟨?_, ?_, ?_, ?_⟩
  · by_cases h : get_field_index l < 0
    · have hidx := get_field_index_create l h
      simp only [ensure_rotation_field_exists, if_pos h]
      exact ⟨by rw [hidx]; omega, trivial⟩
    · simp only [ensure_rotation_field_exists, if_neg h]
      exact ⟨by omega, trivial⟩
  · intro h
    have h' : ¬ get_field_index l < 0 := by omega
    simp only [ensure_rotation_field_exists, if_neg h']
  · intro h
    simp only [ensure_rotation_field_exists, if_pos h]
    exact ⟨create_rotation_field_fields l,
      (create_rotation_field_editLog l).1,
      (create_rotation_field_editLog l).2⟩
  · constructor
    · simp only [startRotation, hid, RotationState.start_rotation]
    · intro s hs
      simp only [startRotation, hid, set_data_defined_rotation,
        List.mem_map] at hs
      obtain ⟨s0, _, rfl⟩ := hs
      rfl

/-- Witness for C7 on a layer lacking the rotation field, not in edit
mode: the field is appended as Double inside a start/commit session. -/
theorem C7_ensure_rotation_field_witness :
    (ensure_rotation_field_exists sampleBareLayer).1.fields =
      sampleBareLayer.fields ++ [⟨ROTATION_FIELD, FieldType.Double⟩] ∧
    (sampleBareLayer.editable = false →
      (ensure_rotation_field_exists sampleBareLayer).1.editLog =
        sampleBareLayer.editLog ++
          [EditCall.startEditing, EditCall.commitChanges]) ∧
    (sampleBareLayer.editable = true →
      (ensure_rotation_field_exists sampleBareLayer).1.editLog =
        sampleBareLayer.editLog) :=
  (C7_ensure_rotation_field sampleBareLayer sampleEnv sampleIdleWorker
    sampleFeature rfl).2.2.1 (by decide)

/-- Lemma: `update_rotation` performs exactly the `changeAttributeValue` on the
attribute table, touches neither fields nor symbols, and wraps the change
in an editing session when the layer was not already editable. -/
theorem update_rotation_unfold (l : VectorLayer) (fid : Option Int)
    (idx : Int) (az : ℚ) :
    (update_rotation l fid idx az).attrs =
      l.attrs.map (fun p =>
        if some p.1 = fid ∧ 0 ≤ idx then
          (p.1, p.2.set idx.toNat (some az))
        else p) ∧
    (update_rotation l fid idx az).fields = l.fields ∧
    (update_rotation l fid idx az).symbols = l.symbols ∧
    (l.editable = false →
      (update_rotation l fid idx az).editLog =
        l.editLog ++ [.startEditing, .commitChanges]) ∧
    (l.editable = true →
      (update_rotation l fid idx az).editLog = l.editLog) := by
  unfold update_rotation withLayerEditingContext changeAttributeValue
    VectorLayer.startEditing VectorLayer.commitChanges
  by_cases h : l.editable <;> simp [h]

/-- After the `changeAttributeValue` map, the targeted cell of the
targeted feature holds the new value. -/
theorem attrsAt_set (attrs : List (Int × List AttrValue)) (fid : Int)
    (n : Nat) (az : ℚ) (v0 : AttrValue)
    (h : attrsAt attrs fid n = some v0) :
    attrsAt (attrs.map (fun p =>
      if some p.1 = some fid ∧ 0 ≤ ((n : Int)) then
        (p.1, p.2.set ((n : Int)).toNat (some az))
      else p)) fid n = some (some az) := by
  induction attrs with
  | nil => simp [attrsAt] at h
  | cons a rest ih =>
    by_cases hk : a.1 = fid
    · have hcond : some a.1 = some fid ∧ 0 ≤ ((n : Int)) :=
        ⟨by rw [hk], by omega⟩
      rw [attrsAt] at h
      rw [List.find?_cons_of_pos _ (by simp [hk])] at h
      have hlen : n < a.2.length := by
        obtain ⟨hlt, -⟩ := List.getElem?_eq_some.mp h
        exact hlt
      simp only [List.map_cons, if_pos hcond, attrsAt]
      rw [List.find?_cons_of_pos _ (by simp [hk])]
      simp only [Int.toNat_natCast]
      exact List.getElem?_set_eq_of_lt _ hlen
    · rw [attrsAt] at h
      rw [List.find?_cons_of_neg _ (by simp [hk])] at h
      have h' : attrsAt rest fid n = some v0 := by
        rw [attrsAt]; exact h
      have := ih h'
      simp only [List.map_cons, if_neg (by simp [hk] : ¬(some a.1 = some fid ∧ 0 ≤ ((n : Int)))), attrsAt]
      rw [List.find?_cons_of_neg _ (by simp [hk])]
      rw [attrsAt] at this
      exact this

/-- C1: when a rotation is active and an azimuth is stored,
`_commit_rotation` writes the azimuth into the rotation-field cell of the
current feature (through `update_rotation`, inside an editing session when
the layer was not already editable), removes all visual feedback and
resets the rotation state; when inactive or without azimuth it changes
nothing. -/
theorem C1_commit_rotation (w : Worker) :
    (∀ (fid : Int) (n : Nat) (az : ℚ) (v0 : AttrValue),
      w.state.is_active = true →
      w.state.azimuth = some az →
      w.state.feature_id = some fid →
      w.state.rotation_field_index = (n : Int) →
      w.layer.attrAt fid n = some v0 →
      ((commitRotation w).layer.attrAt fid n = some (some az) ∧
       (commitRotation w).layer.fields = w.layer.fields ∧
       (w.layer.editable = false →
         (commitRotation w).layer.editLog =
           w.layer.editLog ++ [.startEditing, .commitChanges]) ∧
       (w.layer.editable = true →
         (commitRotation w).layer.editLog = w.layer.editLog) ∧
       (commitRotation w).visual = w.visual.clear ∧
       (commitRotation w).state = RotationState.initial)) ∧
    ((w.state.is_active = false ∨ w.state.azimuth = none) →
      commitRotation w = w) := by
  constructor
  · intro fid n az v0 ha haz hfid hidx hattr
    have hguard : (!w.state.is_active || w.state.azimuth.isNone) = false := by
      rw [ha, haz]; rfl
    have hcomm : commitRotation w =
        cleanupAfterRotation { w with layer := (update_rotation w.layer
          w.state.feature_id w.state.rotation_field_index
          (w.state.azimuth.getD 0)) } := by
      simp only [commitRotation, hguard, Bool.false_eq_true, if_false]
    rw [hcomm]
    have hupd := update_rotation_unfold w.layer w.state.feature_id
      w.state.rotation_field_index (w.state.azimuth.getD 0)
    rw [haz, hfid, hidx] at hupd
    simp only [Option.getD_some] at hupd
    obtain ⟨hattrs, hfields, hsyms, hlog0, hlog1⟩ := hupd
    refine ⟨?_, ?_, ?_, ?_, rfl, rfl⟩
    · show (update_rotation w.layer w.state.feature_id
        w.state.rotation_field_index (w.state.azimuth.getD 0)).attrAt fid n =
          some (some az)
      rw [haz, hfid, hidx]
      simp only [Option.getD_some]
      rw [VectorLayer.attrAt, hattrs]
      exact attrsAt_set w.layer.attrs fid n az v0 hattr
    · show (update_rotation w.layer w.state.feature_id
        w.state.rotation_field_index (w.state.azimuth.getD 0)).fields =
          w.layer.fields
      rw [haz, hfid, hidx]
      simpa using hfields
    · intro he
      show (update_rotation w.layer w.state.feature_id
        w.state.rotation_field_index (w.state.azimuth.getD 0)).editLog = _
      rw [haz, hfid, hidx]
      simpa using hlog0 he
    · intro he
      show (update_rotation w.layer w.state.feature_id
        w.state.rotation_field_index (w.state.azimuth.getD 0)).editLog = _
      rw [haz, hfid, hidx]
      simpa using hlog1 he
  · intro h
    rcases h with h | h
    · simp [commitRotation, h]
    · simp [commitRotation, h]

/-- Witness for C1 on the sample active worker: committing writes 270 into
field 1 of feature 7 inside a start/commit editing session and resets
everything. -/
theorem C1_commit_rotation_witness :
    (commitRotation sampleActiveWorker).layer.attrAt 7 1 =
      some (some 270) ∧
    (commitRotation sampleActiveWorker).layer.fields =
      sampleActiveWorker.layer.fields ∧
    (sampleActiveWorker.layer.editable = false →
      (commitRotation sampleActiveWorker).layer.editLog =
        sampleActiveWorker.layer.editLog ++
          [EditCall.startEditing, EditCall.commitChanges]) ∧
    (sampleActiveWorker.layer.editable = true →
      (commitRotation sampleActiveWorker).layer.editLog =
        sampleActiveWorker.layer.editLog) ∧
    (commitRotation sampleActiveWorker).visual =
      sampleActiveWorker.visual.clear ∧
    (commitRotation sampleActiveWorker).state = RotationState.initial :=
  (C1_commit_rotation sampleActiveWorker).1 7 1 270 none
    rfl rfl rfl rfl rfl

end RotateMarker
